import Mathlib

/-!
# Verification of the robotic-arm controller core

Shallow embedding of the two controller variants found in
`tools/robotic-arm-controller/device/`:

* `wifi-4degree-tester.py` — asyncio HTTP controller (`ArmCtrl`, `Servo`);
* `wifi-tester-websockets.py` — socket/WebSocket controller
  (`ArmCtrl`, `Servo`, `WSClient`).

Pure functions of the source are translated to Lean functions; the
mutable controller object becomes an explicit state record threaded
through each handler; co-operative sleeps become an explicit clock
(milliseconds) returned next to the state.  Python strings are modelled
as `String` / `List Char`, byte strings as `List Nat` (each element a
byte value), and the CPython string primitives the code relies on
(`find`, slicing, `strip`, `int`, `in`, `split`) are reproduced below
with their CPython semantics.
-/

set_option maxRecDepth 20000

namespace Arm

/-! ## CPython string primitives -/

/-- `isPre pat l` is true when `pat` occurs at the start of `l`
(Boolean prefix test used by the substring search below). -/
def isPre : List Char → List Char → Bool
  | [], _ => true
  | _ :: _, [] => false
  | a :: as, b :: bs => a == b && isPre as bs

/-- Index of the first occurrence of `pat` in `l`, if any
(the search CPython's `str.find` / `in` performs). -/
def findSub (pat : List Char) : List Char → Option Nat
  | [] => if isPre pat [] then some 0 else none
  | c :: t => if isPre pat (c :: t) then some 0 else (findSub pat t).map (· + 1)

/-- Python `pat in s` (substring containment). -/
def containsB (s pat : List Char) : Bool :=
  (findSub pat s).isSome

/-- Python `s.find(pat, start)`: `-1` when absent, otherwise the
absolute index of the first occurrence at or after `start` (negative
`start` counts from the end, clamped at 0). -/
def pyFindFrom (s pat : List Char) (start : Int) : Int :=
  let st : Nat := if start < 0 then ((s.length : Int) + start).toNat else start.toNat
  match findSub pat (s.drop st) with
  | some i => (st : Int) + i
  | none => -1

/-- Python `s[a:b]` (step 1): negative indices count from the end,
out-of-range indices are clamped. -/
def pySlice (s : List Char) (a b : Int) : List Char :=
  let n : Int := s.length
  let a' : Nat := if a < 0 then (n + a).toNat else min a.toNat s.length
  let b' : Nat := if b < 0 then (n + b).toNat else min b.toNat s.length
  (s.drop a').take (b' - a')

/-- The characters Python `str.strip()` removes (ASCII whitespace; the
code never feeds it non-ASCII whitespace). -/
def isPySpace (c : Char) : Bool :=
  c == ' ' || c == '\t' || c == '\n' || c == '\r' || c == '\x0b' || c == '\x0c'

/-- Python `s.strip()`. -/
def pyStrip (s : List Char) : List Char :=
  ((s.dropWhile isPySpace).reverse.dropWhile isPySpace).reverse

/-- Value of a non-empty all-digit string. -/
def digitsVal (ds : List Char) : Option Int :=
  if !ds.isEmpty && ds.all (fun c => c.isDigit) then
    some (ds.foldl (fun a c => a * 10 + ((c.toNat : Int) - 48)) 0)
  else none

/-- Python `int(s)` for a decimal literal: surrounding whitespace is
ignored, an optional sign precedes the digits, anything else raises
(modelled as `none`; CPython's underscore digit separators are not
modelled — none of the payloads contain them). -/
def pyInt (s : List Char) : Option Int :=
  match pyStrip s with
  | '+' :: ds => digitsVal ds
  | '-' :: ds => (digitsVal ds).map (fun v => -v)
  | ds => digitsVal ds

/-! ## `wifi-4degree-tester.py` — HTTP controller state

`ArmCtrl.__init__`: `self.dof = 4`, four servos initialised at angle 90,
`self.q = []`, `self.stop = False`, `self.is_playing = False`,
`self.playback_queue = []`. -/

/-- The mutable fields of `ArmCtrl` in `wifi-4degree-tester.py` that the
request handlers and the servo task read and write.  Servo objects are
represented by their stored angles (`Servo.a`); angles are integers
because every writer of `q` stores `int()`-parsed values and
`playback_queue` is only ever assigned `[]`. -/
structure St where
  q : List (Int × Int)
  stop : Bool
  is_playing : Bool
  playback_queue : List (Int × Int × Nat)
  angles : List Int
  dof : Nat
deriving DecidableEq

/-- `ArmCtrl.__init__` of the HTTP variant. -/
def initSt : St :=
  { q := [], stop := false, is_playing := false, playback_queue := [],
    angles := [90, 90, 90, 90], dof := 4 }

/-- `ArmCtrl.handle_joint_cmd`: under emergency stop or for an empty
body it returns `True` without touching anything; otherwise it
substring-searches the body for `"joint_move"`, `"joint":` and
`"angle":`, extracts the two integers exactly as the slicing code does,
and appends `(joint, angle)` to `self.q` when `0 <= joint < self.dof`.
A failed `int()` raises, is caught, and yields `False`. -/
def extractIntField (body : String) (key : String) : Option Int :=
  let L := body.data
  let start : Int := pyFindFrom L key.data 0 + key.length
  let e1 : Int := pyFindFrom L [','] start
  let e : Int := if e1 = -1 then pyFindFrom L ['}'] start else e1
  pyInt (pySlice L start e)

def handleJointCmd (stop : Bool) (dof : Nat) (q : List (Int × Int)) (body : String) :
    Bool × List (Int × Int) :=
  if stop || body == "" then (true, q)
  else if containsB body.data "\"joint_move\"".data &&
          containsB body.data "\"joint\":".data &&
          containsB body.data "\"angle\":".data then
    match extractIntField body "\"joint\":" with
    | none => (false, q)
    | some joint =>
      match extractIntField body "\"angle\":" with
      | none => (false, q)
      | some angle =>
        if 0 ≤ joint ∧ joint < (dof : Int) then (true, q ++ [(joint, angle)])
        else (false, q)
  else (false, q)

/-- `ArmCtrl.save_recording`: requires both `"filename":` and
`"movements":` to occur in the body, extracts the filename between
`"filename":"` and the next quote, replaces names longer than 20
characters by `rec.json`, and writes the constant string `[]` to that
file ("For now, just create empty file to save memory").  `none` models
the `return False` path (no file written). -/
def saveRecording (body : String) : Option (String × String) :=
  if containsB body.data "\"filename\":".data &&
     containsB body.data "\"movements\":".data then
    let L := body.data
    let fnStart : Int := pyFindFrom L "\"filename\":\"".data 0 + 12
    let fnEnd : Int := pyFindFrom L ['"'] fnStart
    let filename := String.mk (pySlice L fnStart fnEnd)
    let filename := if filename.length > 20 then "rec.json" else filename
    some (filename, "[]")
  else none

/-- `ArmCtrl.start_playback`: ignores its body, clears `self.q` and
`self.playback_queue`, sets `self.is_playing = False` ("Set to True
when you have movements to play"), and returns `True` unconditionally. -/
def startPlayback (st : St) (_body : String) : Bool × St :=
  (true, { st with q := [], is_playing := false, playback_queue := [] })

/-! ## `ArmCtrl.handle_req` — HTTP routing and responses -/

/-- The CORS preamble `h` built at the top of `handle_req`. -/
def corsH : String :=
  "HTTP/1.1 200 OK\r\nAccess-Control-Allow-Origin: *\r\nAccess-Control-Allow-Methods: GET, POST, OPTIONS\r\nAccess-Control-Allow-Headers: Content-Type\r\n"

/-- `h.split('\r\n', 1)[1]` — everything of `corsH` after its first line. -/
def corsRest : String :=
  "Access-Control-Allow-Origin: *\r\nAccess-Control-Allow-Methods: GET, POST, OPTIONS\r\nAccess-Control-Allow-Headers: Content-Type\r\n"

/-- Sanity: `corsRest` really is `corsH` minus its request line. -/
theorem corsH_eq : corsH = "HTTP/1.1 200 OK\r\n" ++ corsRest := rfl

/-- Python `str(b).lower()` for a bool. -/
def pyBool : Bool → String
  | true => "true"
  | false => "false"

def okJson : String := "\x7b\"ok\":true\x7d"

def notOkJson : String := "\x7b\"ok\":false\x7d"

/-- `Content-Type`/`Content-Length` header tail used by the JSON
responses; the length is `len(body.encode('utf-8'))`. -/
def jsonCT (body : String) : String :=
  "Content-Type: application/json\r\nContent-Length: " ++
    toString body.utf8ByteSize ++ "\r\n\r\n"

/-- The `/status` JSON, concatenated exactly as the source builds it. -/
def statusJson (st : St) : String :=
  "\x7b\"ok\":true,\"dof\":" ++ toString st.dof ++ ",\"angles\":[" ++
    String.intercalate "," (st.angles.map toString) ++ "],\"emergency_stop\":" ++
    pyBool st.stop ++ ",\"is_playing\":" ++ pyBool st.is_playing ++ "\x7d"

/-- `ArmCtrl.handle_req` after a successful `read_http_request`: routes
on method and exact path, returns the full byte string written to the
socket together with the updated controller state.  File writes of the
`/recording` branch are modelled by `saveRecording` separately. -/
def handleReq (st : St) (method path body : String) : String × St :=
  if method == "OPTIONS" then
    (corsH ++ "\r\n", st)
  else if path == "/status" then
    let j := statusJson st
    (corsH ++ jsonCT j ++ j, st)
  else if path == "/joints" && method == "POST" then
    let r := handleJointCmd st.stop st.dof st.q body
    let st' := { st with q := r.2 }
    if r.1 then (corsH ++ jsonCT okJson ++ okJson, st')
    else ("HTTP/1.1 400 Bad Request\r\nContent-Length: 8\r\n\r\nBad JSON", st')
  else if path == "/emergency" && method == "POST" then
    (corsH ++ jsonCT okJson ++ okJson,
     { st with stop := true, q := [], is_playing := false, playback_queue := [] })
  else if path == "/recording" && method == "POST" then
    match saveRecording body with
    | some _ => ("HTTP/1.1 200 OK\r\n" ++ corsRest ++ jsonCT okJson ++ okJson, st)
    | none =>
      ("HTTP/1.1 500 Internal Server Error\r\nContent-Length: " ++
         toString notOkJson.utf8ByteSize ++ "\r\n\r\n" ++ notOkJson, st)
  else if path == "/playback" && method == "POST" then
    let r := startPlayback st body
    if r.1 then ("HTTP/1.1 200 OK\r\n" ++ corsRest ++ jsonCT okJson ++ okJson, r.2)
    else ("HTTP/1.1 400 Bad Request\r\nContent-Length: " ++
            toString notOkJson.utf8ByteSize ++ "\r\n\r\n" ++ notOkJson, r.2)
  else
    ("HTTP/1.1 404 Not Found\r\nContent-Length: " ++
       toString ("404 Not Found" : String).utf8ByteSize ++ "\r\n\r\n" ++ "404 Not Found",
     st)

/-! ## `ArmCtrl.servo_task` — the scheduler tick of the HTTP variant

One iteration of the `while True` body, with the co-operative sleeps
made explicit: the function returns the new state and the clock (in
milliseconds) advanced by every `asyncio.sleep` the iteration performs.
`Servo.move` stores the clamped angle (see `servoMove4` below for the
duty conversion). -/

/-- Integer clamp to `[0, 180]` — the `max(0, min(180, angle))` of
`Servo.move` for the integer angles the queues carry. -/
def clampI (a : Int) : Int := max 0 (min 180 a)

/-- `self.servos[j].move(a)` guarded by `if joint < len(self.servos)`
(all enqueue paths check `0 <= joint` first, so only the non-negative
case is reachable; a negative index would wrap in Python). -/
def moveAt (angles : List Int) (j a : Int) : List Int :=
  if 0 ≤ j ∧ j < (angles.length : Int) then angles.set j.toNat (clampI a)
  else angles

/-- One iteration of `servo_task`: playback dispatch, else ordinary
queue dispatch (suppressed while `self.stop`), then the emergency
auto-clear (`await asyncio.sleep(2); self.stop = False`), then the
trailing `await asyncio.sleep(0.05)`.  The LED blink of the dispatch
branch contributes its `sleep(0.02)`. -/
def servoTick (st : St) (t : Nat) : St × Nat :=
  let r :=
    match st.is_playing, st.playback_queue with
    | true, (j, a, d) :: rest =>
      let r1 := if 0 ≤ j ∧ j < (st.angles.length : Int) then
                  (moveAt st.angles j a, t + d)
                else (st.angles, t)
      ({ st with angles := r1.1, playback_queue := rest,
                 is_playing := if rest.isEmpty then false else st.is_playing }, r1.2)
    | _, _ =>
      match st.stop, st.q with
      | false, (j, a) :: rest =>
        let r1 := if 0 ≤ j ∧ j < (st.angles.length : Int) then
                    (moveAt st.angles j a, t + 20)
                  else (st.angles, t)
        ({ st with angles := r1.1, q := rest }, r1.2)
      | _, _ => (st, t)
  let r2 := if r.1.stop then ({ r.1 with stop := false }, r.2 + 2000) else r
  (r2.1, r2.2 + 50)

/-! ## `wifi-tester-websockets.py` — controller state and loop

This variant has no playback engine: `ArmCtrl.__init__` sets only
`self.q = []` and `self.stop = False` beside the four servos. -/

/-- Mutable fields of `ArmCtrl` in `wifi-tester-websockets.py`. -/
structure StW where
  q : List (Int × Int)
  stop : Bool
  angles : List Int
deriving DecidableEq

def initStW : StW := { q := [], stop := false, angles := [90, 90, 90, 90] }

/-- One call of `ArmCtrl.servo_loop`: while stopped it sleeps one
second (`time.sleep(1)  # Reduced delay`), clears the latch and
returns without dispatching; otherwise it pops and dispatches one
queued instruction.  The clock argument is advanced by the sleep. -/
def wsServoLoop (st : StW) (t : Nat) : StW × Nat :=
  if st.stop then ({ st with stop := false }, t + 1000)
  else
    match st.q with
    | (j, a) :: rest => ({ st with q := rest, angles := moveAt st.angles j a }, t)
    | [] => (st, t)

/-- The decoded form of the JSON text payloads `ArmCtrl.handle_msg`
dispatches on (`json.loads` and `dict.get` are library collaborators;
`other` covers unknown tags, which the source silently ignores). -/
inductive WsCmd
  | move (j a : Int)
  | stop
  | home
  | status
  | other
deriving DecidableEq

/-- `ArmCtrl.handle_msg` at the command level: returns the new state
and the text frame sent back, if any.  `mem` stands for the
`gc.mem_free()` sample the status reply embeds. -/
def wsHandleMsg (st : StW) (mem : Nat) : WsCmd → StW × Option String
  | .move j a =>
    if 0 ≤ j ∧ j < (st.angles.length : Int) ∧ 0 ≤ a ∧ a ≤ 180 then
      ({ st with q := st.q ++ [(j, a)] }, some "\x7b\"t\":\"ack\"\x7d")
    else (st, some "\x7b\"t\":\"err\"\x7d")
  | .stop => ({ st with stop := true, q := [] }, some "\x7b\"t\":\"ack\"\x7d")
  | .home =>
    ({ st with q := st.q ++ (List.range st.angles.length).map (fun i => ((i : Int), 90)) },
     some "\x7b\"t\":\"ack\"\x7d")
  | .status =>
    (st, some ("\x7b\"t\":\"status\",\"d\":\x7b\"angles\":[" ++
      String.intercalate ", " (st.angles.map toString) ++ "],\"mem\":" ++
      toString mem ++ "\x7d\x7d"))
  | .other => (st, none)

/-! ## `WSClient.read_frame` — the WebSocket frame decoder

The socket is modelled as the list of delivered bytes; `recv(n)`
returns up to `n` of them.  The result is the `(opcode, payload)` pair
of the source (`none` standing for its `return None, None`), the
`self.connected` flag after the call, and the bytes left unread.  On a
delivered byte sequence no socket exception fires, so every modelled
path leaves `connected` as it was — only the `except` branches of the
source ever clear it. -/

/-- XOR-unmask: `bytes(payload[i] ^ mask[i % 4] for i in range(len(payload)))`. -/
def unmask (payload mask : List Nat) : List Nat :=
  (payload.zip (List.range payload.length)).map
    (fun p => p.1 ^^^ (mask.getD (p.2 % 4) 0))

/-- Tail of `read_frame` from the optional mask read onward. -/
def readFrameRest (opcode : Nat) (masked : Nat) (plen : Nat) (rest : List Nat) :
    Option (Nat × List Nat) × Bool × List Nat :=
  if masked = 1 ∧ rest.length < 4 then (none, true, [])
  else
    let mask := if masked = 1 then rest.take 4 else []
    let rest := if masked = 1 then rest.drop 4 else rest
    if plen > 0 then
      if plen > 512 then (none, true, rest)
      else if rest.length < plen then (none, true, [])
      else
        let payload := rest.take plen
        let payload := if masked = 1 then unmask payload mask else payload
        (some (opcode, payload), true, rest.drop plen)
    else (some (opcode, []), true, rest)

/-- `WSClient.read_frame` on the delivered bytes `stream`. -/
def readFrame (stream : List Nat) : Option (Nat × List Nat) × Bool × List Nat :=
  match stream with
  | b1 :: b2 :: rest =>
    let opcode := b1 &&& 0xf
    let masked := (b2 >>> 7) &&& 1
    let plen := b2 &&& 0x7f
    if plen = 126 then
      match rest with
      | e1 :: e2 :: rest2 => readFrameRest opcode masked ((e1 <<< 8) ||| e2) rest2
      | _ => (none, true, [])
    else if plen = 127 then (none, true, rest)
    else readFrameRest opcode masked plen rest
  | _ => (none, true, [])

/-- The dispatch loop of `ArmCtrl.run` marks a client disconnected
only for a close frame (`if opcode == 8`); any other `read_frame`
result leaves it in `self.clients`. -/
def dispatchDrops : Option (Nat × List Nat) → Bool
  | some (8, _) => true
  | _ => false

/-! ## `Servo.move` — angle clamp and duty conversion

Both variants clamp with `max(0, min(180, angle))` and convert only the
stored angle.  The conversion arithmetic is CPython float arithmetic;
it is modelled exactly over `ℚ` (the float literal `11.11` of the
WebSocket variant is modelled as the decimal `1111/100`), with
`int(...)` as truncation toward zero.  The claims proved about it are
interval bounds, which the float rounding of the original (relative
error < 2⁻⁵⁰ on these magnitudes) cannot cross. -/

/-- Rational clamp to `[0, 180]`. -/
def clampQ (a : ℚ) : ℚ := max 0 (min 180 a)

/-- Python `int()` on a rational value: truncation toward zero. -/
def truncQ (q : ℚ) : Int := if q < 0 then -(Int.floor (-q)) else Int.floor q

/-- `Servo.move` of `wifi-4degree-tester.py`: the stored angle and the
PWM duty `int((1000 + (a / 180) * 1000) * 1024 / 20000)` written to the
pin. -/
def servoMove4 (angle : ℚ) : ℚ × Int :=
  let a := clampQ angle
  (a, truncQ ((1000 + (a / 180) * 1000) * 1024 / 20000))

/-- `Servo.move` of the direct-PWM class in `wifi-tester-websockets.py`:
duty `int((500 + a * 11.11) * 1024 / 20000)`. -/
def servoMoveWs (angle : ℚ) : ℚ × Int :=
  let a := clampQ angle
  (a, truncQ ((500 + a * (1111 / 100)) * 1024 / 20000))

/-! ## SHA-1 and base64 — the `hashlib` / `binascii` collaborators

`ws_handshake` calls `hashlib.sha1(...).digest()` and
`binascii.b2a_base64(...)`.  Both are reimplemented here bit-for-bit
(FIPS 180-1 / RFC 4648) over byte lists so the handshake can be stated
and evaluated; `b2a_base64` appends a newline, which the source then
`strip()`s off. -/

/-- Reduction modulo 2³². -/
def m32 (x : Nat) : Nat := x % 4294967296

/-- Left rotation of a 32-bit word. -/
def rotl (n x : Nat) : Nat := m32 ((x <<< n) ||| (x >>> (32 - n)))

/-- UTF-8 encoding of one character (Python `str.encode()`). -/
def charUtf8 (c : Char) : List Nat :=
  let n := c.toNat
  if n < 128 then [n]
  else if n < 2048 then [192 ||| (n >>> 6), 128 ||| (n &&& 63)]
  else if n < 65536 then
    [224 ||| (n >>> 12), 128 ||| ((n >>> 6) &&& 63), 128 ||| (n &&& 63)]
  else
    [240 ||| (n >>> 18), 128 ||| ((n >>> 12) &&& 63),
     128 ||| ((n >>> 6) &&& 63), 128 ||| (n &&& 63)]

/-- Python `s.encode('utf-8')` as a byte list. -/
def utf8Bytes (s : String) : List Nat :=
  (s.data.map charUtf8).flatten

/-- Big-endian bytes of `x`, `k` bytes wide. -/
def beBytes (k x : Nat) : List Nat :=
  (List.range k).map (fun i => (x >>> (8 * (k - 1 - i))) % 256)

/-- SHA-1 message padding: `0x80`, zeros to 56 mod 64, then the
64-bit big-endian bit length. -/
def sha1pad (msg : List Nat) : List Nat :=
  msg ++ [128] ++ List.replicate ((119 - msg.length % 64) % 64) 0 ++
    beBytes 8 (msg.length * 8)

/-- The sixteen 32-bit big-endian words of one 64-byte block. -/
def blockWords (b : List Nat) : List Nat :=
  (List.range 16).map (fun i =>
    (b.getD (4 * i) 0 <<< 24) ||| (b.getD (4 * i + 1) 0 <<< 16) |||
    (b.getD (4 * i + 2) 0 <<< 8) ||| b.getD (4 * i + 3) 0)

/-- Extension of the 16 block words to the 80-word schedule. -/
def sha1schedule (w16 : List Nat) : List Nat :=
  (List.range 64).foldl
    (fun w _ =>
      w ++ [rotl 1 ((w.getD (w.length - 3) 0 ^^^ w.getD (w.length - 8) 0) ^^^
                    (w.getD (w.length - 14) 0 ^^^ w.getD (w.length - 16) 0))])
    w16

/-- One SHA-1 round: state `(a,b,c,d,e)`, round index `i`, word `w`. -/
def sha1round (st : Nat × Nat × Nat × Nat × Nat) (iw : Nat × Nat) :
    Nat × Nat × Nat × Nat × Nat :=
  let (a, b, c, d, e) := st
  let (i, w) := iw
  let f :=
    if i < 20 then (b &&& c) ||| ((b ^^^ 4294967295) &&& d)
    else if i < 40 then (b ^^^ c) ^^^ d
    else if i < 60 then ((b &&& c) ||| (b &&& d)) ||| (c &&& d)
    else (b ^^^ c) ^^^ d
  let k :=
    if i < 20 then 1518500249
    else if i < 40 then 1859775393
    else if i < 60 then 2400959708
    else 3395469782
  (m32 (rotl 5 a + f + e + k + w), a, rotl 30 b, c, d)

/-- Compression of one 64-byte block into the running hash. -/
def sha1block (h : Nat × Nat × Nat × Nat × Nat) (b : List Nat) :
    Nat × Nat × Nat × Nat × Nat :=
  let (h0, h1, h2, h3, h4) := h
  let ws := sha1schedule (blockWords b)
  let r := (ws.enum.map (fun p => (p.1, p.2))).foldl sha1round (h0, h1, h2, h3, h4)
  (m32 (h0 + r.1), m32 (h1 + r.2.1), m32 (h2 + r.2.2.1),
   m32 (h3 + r.2.2.2.1), m32 (h4 + r.2.2.2.2))

/-- Fold over the 64-byte blocks of a padded message. -/
def sha1blocks (l : List Nat) (h : Nat × Nat × Nat × Nat × Nat) :
    Nat × Nat × Nat × Nat × Nat :=
  match l with
  | [] => h
  | b :: rest => sha1blocks ((b :: rest).drop 64) (sha1block h ((b :: rest).take 64))
termination_by l.length
decreasing_by simp [List.length_drop]; omega

/-- SHA-1 digest of a byte list (the 20 bytes of
`hashlib.sha1(msg).digest()`). -/
def sha1 (msg : List Nat) : List Nat :=
  let h := sha1blocks (sha1pad msg)
    (1732584193, 4023233417, 2562383102, 271733878, 3285377520)
  beBytes 4 h.1 ++ beBytes 4 h.2.1 ++ beBytes 4 h.2.2.1 ++
    beBytes 4 h.2.2.2.1 ++ beBytes 4 h.2.2.2.2

/-- The base64 alphabet. -/
def b64alphabet : List Char :=
  "ABCDEFGHIJKLMNOPQRSTUVWXYZabcdefghijklmnopqrstuvwxyz0123456789+/".data

/-- Digit of the base64 alphabet (arguments are always below 64). -/
def b64digit (n : Nat) : Char := b64alphabet.getD (n % 64) 'A'

/-- RFC 4648 base64 of a byte list, three bytes at a time. -/
def b64chunks : List Nat → List Char
  | [] => []
  | [b1] => [b64digit (b1 >>> 2), b64digit ((b1 <<< 4) &&& 63), '=', '=']
  | [b1, b2] =>
    [b64digit (b1 >>> 2), b64digit (((b1 <<< 4) ||| (b2 >>> 4)) &&& 63),
     b64digit ((b2 <<< 2) &&& 63), '=']
  | b1 :: b2 :: b3 :: rest =>
    b64digit (b1 >>> 2) :: b64digit (((b1 <<< 4) ||| (b2 >>> 4)) &&& 63) ::
    b64digit (((b2 <<< 2) ||| (b3 >>> 6)) &&& 63) :: b64digit (b3 &&& 63) ::
    b64chunks rest

/-- Plain base64 of a byte list, as a string. -/
def b64encode (bs : List Nat) : String := String.mk (b64chunks bs)

/-- `binascii.b2a_base64(bs).decode()` — base64 plus a trailing newline. -/
def b2aBase64 (bs : List Nat) : String := b64encode bs ++ "\n"

/-! ## `ArmCtrl.ws_handshake` -/

/-- The RFC 6455 magic GUID the source concatenates to the key. -/
def wsMagic : String := "258EAFA5-E914-47DA-95CA-C5AB0DC85B11"

/-- The accept value RFC 6455 §4.2.2 prescribes for a key:
`base64(SHA-1(key + GUID))`. -/
def rfc6455Accept (key : String) : String :=
  b64encode (sha1 (utf8Bytes (key ++ wsMagic)))

/-- Python `s.split('\n')`: the lines of `s`, separators removed,
empty pieces kept (`"" → [""]`). -/
def splitNl : List Char → List (List Char)
  | [] => [[]]
  | c :: t =>
    if c = '\n' then [] :: splitNl t
    else
      match splitNl t with
      | [] => [[c]]
      | h :: r => (c :: h) :: r

/-- First line of the decoded request (split on `'\n'`) whose
lowercasing contains `sec-websocket-key`. -/
def findKeyLine : List (List Char) → Option (List Char)
  | [] => none
  | l :: ls =>
    if containsB (l.map Char.toLower) "sec-websocket-key".data then some l
    else findKeyLine ls

/-- The key `ws_handshake` extracts: the part of the matching header
line after its first colon, stripped.  A matching line without a colon
raises `IndexError` (caught, handshake fails) and an empty stripped key
fails the `if not key` test; both are `none`. -/
def wsExtractKey (request : String) : Option String :=
  match findKeyLine (splitNl request.data) with
  | none => none
  | some l =>
    match findSub [':'] l with
    | none => none
    | some i =>
      let key := String.mk (pyStrip (l.drop (i + 1)))
      if key == "" then none else some key

/-- The `101 Switching Protocols` response `ws_handshake` sends when a
key was extracted (`none` models its `return False` paths). -/
def wsHandshake (request : String) : Option String :=
  (wsExtractKey request).map (fun key =>
    let acceptKey := String.mk (pyStrip (b2aBase64 (sha1 (utf8Bytes (key ++ wsMagic)))).data)
    "HTTP/1.1 101 Switching Protocols\r\nUpgrade: websocket\r\nConnection: Upgrade\r\nSec-WebSocket-Accept: " ++
      acceptKey ++ "\r\n\r\n")

/-! ## Substring facts

`containsB` (the model of Python's `in`) agrees with the existence of a
decomposition; these lemmas let the response theorems exhibit header
occurrences constructively and refute them by evaluation. -/

theorem isPre_iff (pat l : List Char) : isPre pat l = true ↔ ∃ t, l = pat ++ t := by
  induction pat generalizing l with
  | nil => simp [isPre]
  | cons a as ih =>
    cases l with
    | nil => simp [isPre]
    | cons b bs =>
      simp only [isPre, Bool.and_eq_true, beq_iff_eq, ih, List.cons_append,
        List.cons.injEq]
      constructor
      · rintro ⟨rfl, t, rfl⟩; exact ⟨t, rfl, rfl⟩
      · rintro ⟨t, rfl, rfl⟩; exact ⟨rfl, t, rfl⟩

theorem containsB_of_isPre {pat l : List Char} (h : isPre pat l = true) :
    containsB l pat = true := by
  cases l with
  | nil =>
    unfold containsB findSub
    rw [h]
    rfl
  | cons c t =>
    unfold containsB findSub
    rw [h]
    rfl

theorem containsB_cons (pat : List Char) (c : Char) (t : List Char) :
    containsB (c :: t) pat = (isPre pat (c :: t) || containsB t pat) := by
  unfold containsB
  rw [show findSub pat (c :: t) =
        if isPre pat (c :: t) = true then some 0
        else (findSub pat t).map (· + 1) from rfl]
  split
  · next h => rw [h]; rfl
  · next h =>
    rw [Bool.eq_false_iff.2 h]
    simp [Option.isSome_map]

theorem containsB_of_parts (pat pre post : List Char) :
    containsB (pre ++ pat ++ post) pat = true := by
  induction pre with
  | nil =>
    exact containsB_of_isPre ((isPre_iff _ _).2 ⟨post, by simp⟩)
  | cons c pre ih =>
    have h : (c :: pre) ++ pat ++ post = c :: (pre ++ pat ++ post) := by simp
    rw [h, containsB_cons, ih, Bool.or_true]

theorem parts_of_containsB (s pat : List Char) (h : containsB s pat = true) :
    ∃ pre post, s = pre ++ pat ++ post := by
  induction s with
  | nil =>
    refine ⟨[], [], ?_⟩
    unfold containsB findSub at h
    split at h
    · next hp =>
      rcases (isPre_iff _ _).1 hp with ⟨t, ht⟩
      have h2 := List.append_eq_nil.1 ht.symm
      simp [h2.1]
    · simp at h
  | cons c t ih =>
    rw [containsB_cons] at h
    rcases Bool.or_eq_true_iff.1 h with hp | hc
    · rcases (isPre_iff _ _).1 hp with ⟨u, hu⟩
      exact ⟨[], u, by simp [hu]⟩
    · rcases ih hc with ⟨pre, post, hs⟩
      exact ⟨c :: pre, post, by simp [hs]⟩

theorem isPre_append_of {pat a : List Char} (b : List Char)
    (h : isPre pat a = true) : isPre pat (a ++ b) = true := by
  rcases (isPre_iff _ _).1 h with ⟨t, rfl⟩
  exact (isPre_iff _ _).2 ⟨t ++ b, by simp⟩

theorem containsB_mono_right {s pat : List Char} (r : List Char)
    (h : containsB s pat = true) : containsB (s ++ r) pat = true := by
  rcases parts_of_containsB _ _ h with ⟨pre, post, rfl⟩
  have he : pre ++ pat ++ post ++ r = pre ++ pat ++ (post ++ r) := by simp
  rw [he]
  exact containsB_of_parts _ _ _

theorem containsB_subpat {s a b c : List Char}
    (h : containsB s (a ++ b ++ c) = true) : containsB s b = true := by
  rcases parts_of_containsB _ _ h with ⟨pre, post, rfl⟩
  have he : pre ++ (a ++ b ++ c) ++ post = (pre ++ a) ++ b ++ (c ++ post) := by simp
  rw [he]
  exact containsB_of_parts _ _ _

/-! ## Well-formedness of an HTTP response (claim C9's property)

A response is well formed when it is an `HTTP/1.1` status line followed
by headers, a blank line, and a body, and the headers carry a
`Content-Length` whose value is the UTF-8 byte length of the body. -/

/-- Boolean test that `s` begins with `pat`. -/
def startsB (s pat : String) : Bool := isPre pat.data s.data

/-- The response `resp` starts with `HTTP/1.1 `, splits as headers,
blank line, body, and its headers contain an exact
`Content-Length: <byte length of body>` line. -/
def goodResp (resp : String) : Prop :=
  startsB resp "HTTP/1.1 " = true ∧
  ∃ hdr body : List Char,
    resp.data = hdr ++ "\r\n\r\n".data ++ body ∧
    containsB (hdr ++ "\r\n".data)
      ("\r\nContent-Length: ".data ++
        (toString (String.mk body).utf8ByteSize).data ++ "\r\n".data) = true

/-- Any string of the shape
`x ++ "\r\nContent-Length: " ++ <len body> ++ "\r\n\r\n" ++ body`, with
`x` an `HTTP/1.1` status line plus headers, is a well-formed response. -/
theorem goodResp_of_parts (resp : String) (x : List Char) (body : String)
    (hx : isPre "HTTP/1.1 ".data x = true)
    (heq : resp.data = x ++ "\r\nContent-Length: ".data ++
      (toString body.utf8ByteSize).data ++ "\r\n\r\n".data ++ body.data) :
    goodResp resp := by
  have hassoc : x ++ "\r\nContent-Length: ".data ++
      (toString body.utf8ByteSize).data ++ "\r\n\r\n".data ++ body.data =
      (x ++ "\r\nContent-Length: ".data ++ (toString body.utf8ByteSize).data) ++
        "\r\n\r\n".data ++ body.data := by simp
  constructor
  · unfold startsB
    rw [heq]
    have h1 := isPre_append_of ("\r\nContent-Length: ".data) hx
    have h2 := isPre_append_of ((toString body.utf8ByteSize).data) h1
    have h3 := isPre_append_of ("\r\n\r\n".data) h2
    exact isPre_append_of body.data h3
  · refine ⟨x ++ "\r\nContent-Length: ".data ++ (toString body.utf8ByteSize).data,
      body.data, by rw [heq, hassoc], ?_⟩
    have hb : (String.mk body.data) = body := rfl
    rw [hb]
    have he : (x ++ "\r\nContent-Length: ".data ++ (toString body.utf8ByteSize).data) ++
        "\r\n".data =
        x ++ ("\r\nContent-Length: ".data ++ (toString body.utf8ByteSize).data ++
          "\r\n".data) ++ [] := by simp
    rw [he]
    exact containsB_of_parts _ _ _

/-! ## Claim C9 -/

/-- C9, counterexample: the OPTIONS response
(`w.write((h + "\r\n").encode())`) carries no `Content-Length` header
at all, so not every response of the server satisfies the claimed
well-formedness property — refuting "Every HTTP response emitted by the
server — on every path and method, including the OPTIONS response with
its empty body — contains an explicit Content-Length header". -/
theorem C9_counterexample : ¬ goodResp (handleReq initSt "OPTIONS" "/" "").1 := by
  intro hg
  obtain ⟨-, hdr, bd, heq, hcl⟩ := hg
  have hpat : "\r\nContent-Length: ".data ++
      (toString (String.mk bd).utf8ByteSize).data ++ "\r\n".data =
      "\r\n".data ++ "Content-Length: ".data ++
        ((toString (String.mk bd).utf8ByteSize).data ++ "\r\n".data) := by
    have hs : ("\r\nContent-Length: " : String).data =
        "\r\n".data ++ "Content-Length: ".data := by decide
    simp [hs]
  rw [hpat] at hcl
  have hcl2 : containsB (hdr ++ "\r\n".data) "Content-Length: ".data = true :=
    containsB_subpat hcl
  have hcl3 : containsB ((hdr ++ "\r\n".data) ++ ("\r\n".data ++ bd))
      "Content-Length: ".data = true := containsB_mono_right _ hcl2
  have hre : (hdr ++ "\r\n".data) ++ ("\r\n".data ++ bd) =
      (handleReq initSt "OPTIONS" "/" "").1.data := by
    rw [heq]
    have hs : ("\r\n\r\n" : String).data = "\r\n".data ++ "\r\n".data := by decide
    simp [hs]
  rw [hre] at hcl3
  have hfalse : containsB (handleReq initSt "OPTIONS" "/" "").1.data
      "Content-Length: ".data = false := by decide
  rw [hcl3] at hfalse
  exact absurd hfalse (by simp)

/-- The split of the JSON content-type/length header block at its
embedded CRLF, used to locate the Content-Length occurrence. -/
theorem ctSplit : ("Content-Type: application/json\r\nContent-Length: " : String).data =
    "Content-Type: application/json".data ++ "\r\nContent-Length: ".data := by decide

/-- The `h + "Content-Type..." + body` responses are well formed. -/
theorem good_json200 (b : String) : goodResp (corsH ++ jsonCT b ++ b) := by
  refine goodResp_of_parts _ (corsH.data ++ "Content-Type: application/json".data) b
    (isPre_append_of _ (by decide)) ?_
  simp [jsonCT, ctSplit]

/-- The rebuilt `HTTP/1.1 200 OK` responses of the `/recording` and
`/playback` branches are well formed. -/
theorem good_json200rest (b : String) :
    goodResp ("HTTP/1.1 200 OK\r\n" ++ corsRest ++ jsonCT b ++ b) := by
  refine goodResp_of_parts _
    (("HTTP/1.1 200 OK\r\n" : String).data ++ corsRest.data ++
      "Content-Type: application/json".data) b
    (isPre_append_of _ (isPre_append_of _ (by decide))) ?_
  simp [jsonCT, ctSplit]

theorem good_400 :
    goodResp "HTTP/1.1 400 Bad Request\r\nContent-Length: 8\r\n\r\nBad JSON" :=
  ⟨by decide, "HTTP/1.1 400 Bad Request\r\nContent-Length: 8".data, "Bad JSON".data,
    by decide, by decide⟩

theorem good_500 :
    goodResp ("HTTP/1.1 500 Internal Server Error\r\nContent-Length: " ++
      toString notOkJson.utf8ByteSize ++ "\r\n\r\n" ++ notOkJson) :=
  ⟨by decide,
    "HTTP/1.1 500 Internal Server Error\r\nContent-Length: 12".data, notOkJson.data,
    by decide, by decide⟩

theorem good_404 :
    goodResp ("HTTP/1.1 404 Not Found\r\nContent-Length: " ++
      toString ("404 Not Found" : String).utf8ByteSize ++ "\r\n\r\n" ++ "404 Not Found") :=
  ⟨by decide, "HTTP/1.1 404 Not Found\r\nContent-Length: 13".data, "404 Not Found".data,
    by decide, by decide⟩

/-- C9, amended: every HTTP response of the server other than the
OPTIONS response is well-formed HTTP/1.1 with an explicit
`Content-Length` header whose value equals the exact byte length of
the response body; the OPTIONS response (CORS headers, empty body)
carries no Content-Length. -/
theorem C9_content_length (st : St) (method path body : String)
    (h : method ≠ "OPTIONS") :
    goodResp (handleReq st method path body).1 := by
  have hm : (method == "OPTIONS") = false := by simpa using h
  unfold handleReq
  rw [hm]
  simp only [Bool.false_eq_true, if_false]
  by_cases h1 : path == "/status"
  · simp only [h1, if_true]
    exact good_json200 (statusJson st)
  · simp only [h1, Bool.false_eq_true, if_false]
    by_cases h2 : path == "/joints" && method == "POST"
    · simp only [h2, if_true]
      rcases hb : handleJointCmd st.stop st.dof st.q body with ⟨ok, q2⟩
      cases ok
      · exact good_400
      · exact good_json200 okJson
    · simp only [h2, Bool.false_eq_true, if_false]
      by_cases h3 : path == "/emergency" && method == "POST"
      · simp only [h3, if_true]
        exact good_json200 okJson
      · simp only [h3, Bool.false_eq_true, if_false]
        by_cases h4 : path == "/recording" && method == "POST"
        · simp only [h4, if_true]
          rcases hsv : saveRecording body with - | ⟨fn, c⟩
          · exact good_500
          · exact good_json200rest okJson
        · simp only [h4, Bool.false_eq_true, if_false]
          by_cases h5 : path == "/playback" && method == "POST"
          · simp only [h5, if_true, startPlayback]
            exact good_json200rest okJson
          · simp only [h5, Bool.false_eq_true, if_false]
            exact good_404

/-- C9 witness: the `/status` response of the fresh controller. -/
theorem C9_content_length_witness :
    ("GET" : String) ≠ "OPTIONS" ∧ goodResp (handleReq initSt "GET" "/status" "").1 :=
  ⟨by decide, C9_content_length initSt "GET" "/status" "" (by decide)⟩

/-! ## Claim C1 -/

/-- C1: evaluation of the code at the claim's inputs.  A POST to
`/playback` whose body carries an *empty* movements sequence is
answered `200 {"ok":true}` — not the claimed `400` — and a POST whose
body carries a *non-empty* movements sequence is also answered `200`
but leaves the Playback Session inactive (`is_playing = false`,
`playback_queue = []`) instead of marking it active:
`start_playback` never reads its body. -/
theorem C1_playback_stub :
    (handleReq initSt "POST" "/playback" "\x7b\"movements\":[]\x7d").1 =
      "HTTP/1.1 200 OK\r\n" ++ corsRest ++ jsonCT okJson ++ okJson ∧
    (handleReq initSt "POST" "/playback"
        "\x7b\"movements\":[\x7b\"joint\":0,\"angle\":45,\"delay\":100\x7d]\x7d").1 =
      "HTTP/1.1 200 OK\r\n" ++ corsRest ++ jsonCT okJson ++ okJson ∧
    (handleReq initSt "POST" "/playback"
        "\x7b\"movements\":[\x7b\"joint\":0,\"angle\":45,\"delay\":100\x7d]\x7d").2.is_playing
      = false := by
  refine ⟨rfl, rfl, rfl⟩

/-! ## Claim C2 -/

/-- Modelled from the spec: the repository contains no reader of a
recording file; §6 states the persisted state is "a serialized array of
`[channel, angle, delay_ms]` triples", so an equivalent step list is
reproduced on read exactly when the file holds this serialization of
the saved steps. -/
def specSerialize (steps : List (Int × Int × Int)) : String :=
  "[" ++ String.intercalate ","
    (steps.map (fun s =>
      "[" ++ toString s.1 ++ "," ++ toString s.2.1 ++ "," ++ toString s.2.2 ++ "]")) ++ "]"

/-- C2: evaluation of the code at the claim's inputs.  `save_recording`
writes the constant string `[]` — the serialization of the *empty* step
list — whatever movements the body carries, so a subsequent read of the
storage key `seq.json` cannot reproduce the non-empty step list
`[(0,45,100)]` that was saved. -/
theorem C2_save_writes_empty :
    saveRecording
      "\x7b\"filename\":\"seq.json\",\"movements\":[[0,45,100]]\x7d" =
      some ("seq.json", "[]") ∧
    saveRecording
      "\x7b\"filename\":\"seq.json\",\"movements\":[[0,45,100],[1,90,50]]\x7d" =
      some ("seq.json", "[]") ∧
    specSerialize [] = "[]" ∧
    specSerialize [(0, 45, 100)] ≠ "[]" := by
  refine ⟨by decide, by decide, rfl, by decide⟩

/-! ## Claim C3 -/

/-- C3: engaging the Emergency Latch — via `POST /emergency` in the
HTTP variant or a WebSocket `stop` command in the WebSocket variant —
leaves an empty Command Queue and an inactive Playback Session
immediately, whatever the prior state, and the next scheduler tick
keeps them empty/inactive (the tick spent under `stop` dispatches
nothing). -/
theorem C3_emergency_clears (st : St) (body : String) (t : Nat)
    (stw : StW) (mem tw : Nat) :
    ((handleReq st "POST" "/emergency" body).2.q = [] ∧
     (handleReq st "POST" "/emergency" body).2.is_playing = false ∧
     (handleReq st "POST" "/emergency" body).2.playback_queue = [] ∧
     (handleReq st "POST" "/emergency" body).2.stop = true) ∧
    ((servoTick (handleReq st "POST" "/emergency" body).2 t).1.q = [] ∧
     (servoTick (handleReq st "POST" "/emergency" body).2 t).1.is_playing = false ∧
     (servoTick (handleReq st "POST" "/emergency" body).2 t).1.playback_queue = []) ∧
    ((wsHandleMsg stw mem .stop).1.q = [] ∧
     (wsHandleMsg stw mem .stop).1.stop = true ∧
     (wsServoLoop (wsHandleMsg stw mem .stop).1 tw).1.q = []) :=
  ⟨⟨rfl, rfl, rfl, rfl⟩, ⟨rfl, rfl, rfl⟩, ⟨rfl, rfl, rfl⟩⟩

/-! ## Claim C10 -/

/-- C10: while the emergency latch is engaged (`self.stop` set), every
POST to `/joints` — whatever the body, malformed or out of range — is
answered `200 {"ok":true}` and the controller state (in particular the
Command Queue) is unchanged: `handle_joint_cmd` returns `True` at once
without parsing. -/
theorem C10_stop_discards (st : St) (body : String) (h : st.stop = true) :
    handleReq st "POST" "/joints" body = (corsH ++ jsonCT okJson ++ okJson, st) := by
  have hj : handleJointCmd st.stop st.dof st.q body = (true, st.q) := by
    unfold handleJointCmd
    rw [h]
    rfl
  unfold handleReq
  rw [hj]
  rfl

/-- C10 witness: an engaged controller answering a malformed
out-of-range body. -/
theorem C10_stop_discards_witness :
    ({ initSt with stop := true } : St).stop = true ∧
    handleReq { initSt with stop := true } "POST" "/joints"
        "\x7b\"type\":\"joint_move\",\"joint\":99,\"angle\":oops" =
      (corsH ++ jsonCT okJson ++ okJson, { initSt with stop := true }) :=
  ⟨rfl, C10_stop_discards { initSt with stop := true }
    "\x7b\"type\":\"joint_move\",\"joint\":99,\"angle\":oops" rfl⟩

/-! ## Claim C5 -/

/-- C5: with the emergency latch clear, a POST to `/joints` whose body
passes the substring checks and names a joint outside the configured
degree-of-freedom range is answered `400 Bad Request` and the
controller state — in particular the Command Queue — is unchanged. -/
theorem C5_out_of_range_joint (st : St) (body : String) (j : Int)
    (hstop : st.stop = false)
    (hchk : (containsB body.data "\"joint_move\"".data &&
             containsB body.data "\"joint\":".data &&
             containsB body.data "\"angle\":".data) = true)
    (hj : extractIntField body "\"joint\":" = some j)
    (hrange : ¬ (0 ≤ j ∧ j < (st.dof : Int))) :
    handleReq st "POST" "/joints" body =
      ("HTTP/1.1 400 Bad Request\r\nContent-Length: 8\r\n\r\nBad JSON", st) := by
  have hbody : (body == "") = false := by
    cases hbe : body == ""
    · rfl
    · exfalso
      have hb : body = "" := by simpa using hbe
      subst hb
      revert hchk
      decide
  have hjc : handleJointCmd st.stop st.dof st.q body = (false, st.q) := by
    unfold handleJointCmd
    rw [hstop, hbody]
    simp only [Bool.or_self, Bool.false_eq_true, if_false, hchk, if_true, hj]
    cases ha : extractIntField body "\"angle\":"
    · rfl
    · simp only [if_neg hrange]
  unfold handleReq
  rw [hjc]
  rfl

/-- C5 witness: the spec's own example — joint 7 on the 4-DOF
controller with the latch clear. -/
theorem C5_witness :
    initSt.stop = false ∧
    extractIntField "\x7b\"type\":\"joint_move\",\"joint\":7,\"angle\":90\x7d"
      "\"joint\":" = some 7 ∧
    ¬ ((0:Int) ≤ 7 ∧ (7:Int) < (initSt.dof : Int)) ∧
    handleReq initSt "POST" "/joints"
        "\x7b\"type\":\"joint_move\",\"joint\":7,\"angle\":90\x7d" =
      ("HTTP/1.1 400 Bad Request\r\nContent-Length: 8\r\n\r\nBad JSON", initSt) :=
  ⟨rfl, by decide, by decide,
    C5_out_of_range_joint initSt
      "\x7b\"type\":\"joint_move\",\"joint\":7,\"angle\":90\x7d" 7
      rfl (by decide) (by decide) (by decide)⟩

/-! ## Claim C4 -/

/-- C4, counterexample: in the WebSocket variant the scheduler tick
that clears an engaged latch advances the clock by exactly 1000 ms
(`time.sleep(1)`), not by a grace interval in the claimed 2–3 second
range. -/
theorem C4_counterexample :
    (wsServoLoop { initStW with stop := true } 0).1.stop = false ∧
    (wsServoLoop { initStW with stop := true } 0).2 = 1000 ∧
    ¬ (2000 ≤ (wsServoLoop { initStW with stop := true } 0).2 ∧
       (wsServoLoop { initStW with stop := true } 0).2 ≤ 3000) :=
  ⟨rfl, rfl, by decide⟩

/-- C4, amended: the latch auto-clears in the scheduler's own tick (no
separate timer), but the grace wait is per variant: the engaged HTTP
variant's tick (taken on a post-engage state, where playback is
inactive) sleeps 2000 ms before clearing and 50 ms of loop delay after
(2050 ms in total), while the WebSocket variant's tick sleeps 1000 ms —
measured from the tick that observes the engaged latch, not from the
moment of engagement. -/
theorem C4_grace_interval (st : St) (t : Nat) (stw : StW) (tw : Nat)
    (h : st.stop = true) (hp : st.is_playing = false) (hw : stw.stop = true) :
    servoTick st t = ({ st with stop := false }, t + 2000 + 50) ∧
    wsServoLoop stw tw = ({ stw with stop := false }, tw + 1000) := by
  constructor
  · obtain ⟨q, stp, ip, pq, ang, dof⟩ := st
    dsimp only at h hp
    subst h
    subst hp
    rfl
  · obtain ⟨q, stp, ang⟩ := stw
    dsimp only at hw
    subst hw
    rfl

/-- C4 witness: the engaged states the two engage paths produce. -/
theorem C4_grace_interval_witness :
    ({ initSt with stop := true } : St).stop = true ∧
    ({ initSt with stop := true } : St).is_playing = false ∧
    ({ initStW with stop := true } : StW).stop = true ∧
    (servoTick { initSt with stop := true } 0 =
        ({ initSt with stop := false }, 0 + 2000 + 50) ∧
     wsServoLoop { initStW with stop := true } 0 =
        ({ initStW with stop := false }, 0 + 1000)) :=
  ⟨rfl, rfl, rfl,
    C4_grace_interval { initSt with stop := true } 0
      { initStW with stop := true } 0 rfl rfl rfl⟩

/-! ## Claim C8 -/

/-- C8, counterexample: a frame header whose 7-bit length field is 127
(`[0x81, 0x7f]`) makes `read_frame` return `(None, None)` with
`self.connected` still `True`: the frame is discarded but the
connection is *not* dropped, refuting "the connection is dropped
(closed)". -/
theorem C8_counterexample :
    readFrame [129, 127] = (none, true, []) ∧
    (readFrame [129, 127]).2.1 ≠ false :=
  ⟨rfl, by decide⟩

/-- C8, amended: a frame whose 7-bit length field equals 127 is
rejected without being processed — `read_frame` returns no frame and
consumes only the two header bytes — but the connection stays
connected, and the dispatch loop (which drops a client only for opcode
8 or a socket error) does not tear it down; the unread remainder of
the frame is left in the stream (desynchronising it) rather than the
connection being closed. -/
theorem C8_len127_skips (b1 b2 : Nat) (rest : List Nat)
    (h : b2 &&& 127 = 127) :
    readFrame (b1 :: b2 :: rest) = (none, true, rest) ∧
    dispatchDrops none = false := by
  constructor
  · unfold readFrame
    dsimp only
    rw [h]
    rfl
  · rfl

/-- C8 witness: a masked variant of the 127-length header
(`0xff &&& 0x7f = 127`) followed by stray bytes. -/
theorem C8_len127_skips_witness :
    (255 : Nat) &&& 127 = 127 ∧
    (readFrame [129, 255, 1, 2] = (none, true, [1, 2]) ∧
     dispatchDrops none = false) :=
  ⟨by decide, C8_len127_skips 129 255 [1, 2] (by decide)⟩

/-! ## Claim C6 -/

/-- `truncQ` of a non-negative value is its floor. -/
theorem truncQ_nonneg (v : ℚ) (h : 0 ≤ v) : truncQ v = Int.floor v := by
  unfold truncQ
  rw [if_neg (not_lt.2 h)]

/-- C6: for every angle `A` (rational, covering the integer and float
angles the handlers produce), `Servo.move` stores `clamp(A,0,180)` as
the current angle, the stored angle always lies in `[0,180]`, the duty
written to the hardware is computed from the stored (clamped) angle
only, and it stays inside `[51,102]` for the HTTP variant and
`[25,127]` for the WebSocket direct-PWM variant — both well inside the
valid 10-bit duty range `[0,1023]`, so no out-of-bound hardware value
is ever written. -/
theorem C6_servo_clamp (a : ℚ) :
    (servoMove4 a).1 = clampQ a ∧ 0 ≤ (servoMove4 a).1 ∧ (servoMove4 a).1 ≤ 180 ∧
    (servoMove4 a).2 = truncQ ((1000 + (servoMove4 a).1 / 180 * 1000) * 1024 / 20000) ∧
    51 ≤ (servoMove4 a).2 ∧ (servoMove4 a).2 ≤ 102 ∧
    (servoMoveWs a).1 = clampQ a ∧
    (servoMoveWs a).2 = truncQ ((500 + (servoMoveWs a).1 * (1111 / 100)) * 1024 / 20000) ∧
    25 ≤ (servoMoveWs a).2 ∧ (servoMoveWs a).2 ≤ 127 := by
  have hs0 : 0 ≤ clampQ a := le_max_left 0 _
  have hs180 : clampQ a ≤ 180 := max_le (by norm_num) (min_le_left _ _)
  have hv4 : (1000 + clampQ a / 180 * 1000) * 1024 / 20000 =
      256 / 5 + 64 / 225 * clampQ a := by ring
  have hvw : (500 + clampQ a * (1111 / 100)) * 1024 / 20000 =
      128 / 5 + 8888 / 15625 * clampQ a := by ring
  have h4pos : (0:ℚ) ≤ (1000 + clampQ a / 180 * 1000) * 1024 / 20000 := by
    rw [hv4]; linarith
  have hwpos : (0:ℚ) ≤ (500 + clampQ a * (1111 / 100)) * 1024 / 20000 := by
    rw [hvw]; linarith
  refine ⟨rfl, hs0, hs180, rfl, ?_, ?_, rfl, rfl, ?_, ?_⟩
  · show (51:ℤ) ≤ truncQ ((1000 + clampQ a / 180 * 1000) * 1024 / 20000)
    rw [truncQ_nonneg _ h4pos]
    refine Int.le_floor.2 ?_
    push_cast
    rw [hv4]
    linarith
  · show truncQ ((1000 + clampQ a / 180 * 1000) * 1024 / 20000) ≤ (102:ℤ)
    rw [truncQ_nonneg _ h4pos]
    have hlt : Int.floor ((1000 + clampQ a / 180 * 1000) * 1024 / 20000) < (103:ℤ) := by
      refine Int.floor_lt.2 ?_
      push_cast
      rw [hv4]
      linarith
    omega
  · show (25:ℤ) ≤ truncQ ((500 + clampQ a * (1111 / 100)) * 1024 / 20000)
    rw [truncQ_nonneg _ hwpos]
    refine Int.le_floor.2 ?_
    push_cast
    rw [hvw]
    linarith
  · show truncQ ((500 + clampQ a * (1111 / 100)) * 1024 / 20000) ≤ (127:ℤ)
    rw [truncQ_nonneg _ hwpos]
    have hlt : Int.floor ((500 + clampQ a * (1111 / 100)) * 1024 / 20000) < (128:ℤ) := by
      refine Int.floor_lt.2 ?_
      push_cast
      rw [hvw]
      linarith
    omega

/-! ## Claim C7 -/

theorem b64digit_nonspace (n : Nat) : isPySpace (b64digit n) = false := by
  have hlt : n % 64 < 64 := Nat.mod_lt _ (by norm_num)
  have hall : ∀ m, m < 64 → isPySpace (b64alphabet.getD m 'A') = false := by decide
  exact hall _ hlt

/-- No character of a base64 encoding is whitespace. -/
theorem b64chunks_nonspace : ∀ (bs : List Nat) (c : Char),
    c ∈ b64chunks bs → isPySpace c = false
  | [], c, hc => by simp [b64chunks] at hc
  | [b1], c, hc => by
    simp only [b64chunks, List.mem_cons, List.not_mem_nil, or_false] at hc
    rcases hc with rfl | rfl | rfl | rfl
    · exact b64digit_nonspace _
    · exact b64digit_nonspace _
    · decide
    · decide
  | [b1, b2], c, hc => by
    simp only [b64chunks, List.mem_cons, List.not_mem_nil, or_false] at hc
    rcases hc with rfl | rfl | rfl | rfl
    · exact b64digit_nonspace _
    · exact b64digit_nonspace _
    · exact b64digit_nonspace _
    · decide
  | b1 :: b2 :: b3 :: rest, c, hc => by
    simp only [b64chunks, List.mem_cons] at hc
    rcases hc with rfl | rfl | rfl | rfl | h
    · exact b64digit_nonspace _
    · exact b64digit_nonspace _
    · exact b64digit_nonspace _
    · exact b64digit_nonspace _
    · exact b64chunks_nonspace rest c h

theorem b64chunks_ne_nil : ∀ bs : List Nat, bs ≠ [] → b64chunks bs ≠ []
  | [], h => absurd rfl h
  | [_], _ => by simp [b64chunks]
  | [_, _], _ => by simp [b64chunks]
  | _ :: _ :: _ :: _, _ => by simp [b64chunks]

/-- The SHA-1 digest is never empty (it always has 20 bytes). -/
theorem sha1_ne_nil (m : List Nat) : sha1 m ≠ [] := by
  simp [sha1, beBytes]

theorem dropWhile_eq_self_of {p : Char → Bool} :
    ∀ (l : List Char), (∀ c ∈ l, p c = false) → l.dropWhile p = l
  | [], _ => rfl
  | c :: t, h => by
    rw [List.dropWhile_cons, h c (List.mem_cons_self c t)]
    simp

/-- Stripping a trailing newline off a non-empty all-non-whitespace
string gives the string back (the `accept_key.strip()` step). -/
theorem pyStrip_append_newline (l : List Char) (hne : l ≠ [])
    (hns : ∀ c ∈ l, isPySpace c = false) :
    pyStrip (l ++ ['\n']) = l := by
  obtain ⟨c, t, rfl⟩ : ∃ c t, l = c :: t := by
    cases l with
    | nil => exact absurd rfl hne
    | cons c t => exact ⟨c, t, rfl⟩
  unfold pyStrip
  have h1 : ((c :: t) ++ ['\n']).dropWhile isPySpace = (c :: t) ++ ['\n'] := by
    rw [List.cons_append, List.dropWhile_cons,
      hns c (List.mem_cons_self c t)]
    simp
  rw [h1, List.reverse_append]
  have h2 : (['\n'] : List Char).reverse ++ (c :: t).reverse =
      '\n' :: (c :: t).reverse := rfl
  rw [h2, List.dropWhile_cons]
  have h3 : isPySpace '\n' = true := by decide
  rw [h3]
  have h4 : ∀ c2 ∈ (c :: t).reverse, isPySpace c2 = false := fun c2 hc2 =>
    hns c2 (List.mem_reverse.1 hc2)
  simp only [if_true]
  rw [dropWhile_eq_self_of _ h4, List.reverse_reverse]

/-- The accept key the handshake computes — `b2a_base64` then `strip()`
— is exactly the RFC 6455 value `base64(SHA-1(key + GUID))`. -/
theorem acceptKey_eq (key : String) :
    String.mk (pyStrip (b2aBase64 (sha1 (utf8Bytes (key ++ wsMagic)))).data) =
      rfc6455Accept key := by
  have hdata : (b2aBase64 (sha1 (utf8Bytes (key ++ wsMagic)))).data =
      b64chunks (sha1 (utf8Bytes (key ++ wsMagic))) ++ ['\n'] := by
    simp [b2aBase64, b64encode]
  rw [hdata, pyStrip_append_newline _
    (b64chunks_ne_nil _ (sha1_ne_nil _))
    (b64chunks_nonspace _)]
  rfl

/-- C7: whenever the handshake extracts a `Sec-WebSocket-Key` value
`key` from the request, the response it sends is the
`101 Switching Protocols` response whose `Sec-WebSocket-Accept` header
value is exactly `base64(SHA-1(key ++ "258EAFA5-E914-47DA-95CA-C5AB0DC85B11"))`. -/
theorem C7_handshake (request key : String)
    (h : wsExtractKey request = some key) :
    wsHandshake request = some
      ("HTTP/1.1 101 Switching Protocols\r\nUpgrade: websocket\r\nConnection: Upgrade\r\nSec-WebSocket-Accept: " ++
        rfc6455Accept key ++ "\r\n\r\n") ∧
    containsB
      ("HTTP/1.1 101 Switching Protocols\r\nUpgrade: websocket\r\nConnection: Upgrade\r\nSec-WebSocket-Accept: " ++
        rfc6455Accept key ++ "\r\n\r\n").data
      ("\r\nSec-WebSocket-Accept: ".data ++ (rfc6455Accept key).data ++ "\r\n".data)
      = true ∧
    startsB
      ("HTTP/1.1 101 Switching Protocols\r\nUpgrade: websocket\r\nConnection: Upgrade\r\nSec-WebSocket-Accept: " ++
        rfc6455Accept key ++ "\r\n\r\n")
      "HTTP/1.1 101 Switching Protocols\r\n" = true := by
  refine ⟨?_, ?_, ?_⟩
  · unfold wsHandshake
    rw [h, Option.map_some']
    rw [acceptKey_eq key]
  · have hsplit :
        ("HTTP/1.1 101 Switching Protocols\r\nUpgrade: websocket\r\nConnection: Upgrade\r\nSec-WebSocket-Accept: " : String).data =
        "HTTP/1.1 101 Switching Protocols\r\nUpgrade: websocket\r\nConnection: Upgrade".data ++
          "\r\nSec-WebSocket-Accept: ".data := by decide
    have h4 : ("\r\n\r\n" : String).data = "\r\n".data ++ "\r\n".data := by decide
    have heq :
        ("HTTP/1.1 101 Switching Protocols\r\nUpgrade: websocket\r\nConnection: Upgrade\r\nSec-WebSocket-Accept: " ++
          rfc6455Accept key ++ "\r\n\r\n").data =
        "HTTP/1.1 101 Switching Protocols\r\nUpgrade: websocket\r\nConnection: Upgrade".data ++
          ("\r\nSec-WebSocket-Accept: ".data ++ (rfc6455Accept key).data ++ "\r\n".data) ++
          "\r\n".data := by
      simp [hsplit, h4]
    rw [heq]
    exact containsB_of_parts _ _ _
  · unfold startsB
    simp only [String.data_append]
    exact isPre_append_of _ (isPre_append_of _ (by decide))

/-- C7 witness: the RFC 6455 §1.3 example key. -/
theorem C7_handshake_witness :
    wsExtractKey
      "GET /chat HTTP/1.1\r\nHost: server\r\nUpgrade: websocket\r\nSec-WebSocket-Key: dGhlIHNhbXBsZSBub25jZQ==\r\n\r\n"
      = some "dGhlIHNhbXBsZSBub25jZQ==" ∧
    wsHandshake
      "GET /chat HTTP/1.1\r\nHost: server\r\nUpgrade: websocket\r\nSec-WebSocket-Key: dGhlIHNhbXBsZSBub25jZQ==\r\n\r\n"
      = some
      ("HTTP/1.1 101 Switching Protocols\r\nUpgrade: websocket\r\nConnection: Upgrade\r\nSec-WebSocket-Accept: " ++
        rfc6455Accept "dGhlIHNhbXBsZSBub25jZQ==" ++ "\r\n\r\n") :=
  ⟨by decide,
    (C7_handshake
      "GET /chat HTTP/1.1\r\nHost: server\r\nUpgrade: websocket\r\nSec-WebSocket-Key: dGhlIHNhbXBsZSBub25jZQ==\r\n\r\n"
      "dGhlIHNhbXBsZSBub25jZQ==" (by decide)).1⟩

end Arm
